import Mathlib

/-!
Verification of the WoodenMart checkout core (src/main.py, src/schemas.py).

Shallow embedding conventions:
- Python floats are modelled as exact rationals (ℚ).
- The MongoDB product collection is modelled as a lookup function
  `String → Option Product` (the argument is the product id string;
  `db.(find_one)` returning no document is `none`).
- `HTTPException` raises are modelled as `Except HTTPException` results.
- Stripe's `checkout.Session.create` is modelled as an oracle function
  supplied in the configuration; the orchestrator records every session
  request it issues so that "no payment session was created" is a
  statement about the result.
- `create_document` (order persistence) is modelled by recording the
  persisted order values in the result; the generated id is supplied by
  the configuration.
-/

namespace WoodenMart

/-- Product schema (schemas.py, class Product). Fields read by checkout are
title, price and currency; the remaining fields are carried for fidelity. -/
structure Product where
  title : String
  description : Option String := none
  price : ℚ
  currency : String := "inr"
  images : List String := []
  category : Option String := none
  stock : Int := 0
  featured : Bool := false
deriving DecidableEq

/-- One entry of `CheckoutRequest.items` (main.py, a raw dict). The checkout
code reads only `it["product_id"]` and `it.get("quantity", 1)`; a client may
also attach a price-like field, which is modelled here so that independence
from it can be stated. `quantity = none` models an absent key. -/
structure CartLine where
  product_id : String
  quantity : Option Int := none
  client_price : Option ℚ := none
deriving DecidableEq

/-- OrderItem schema (schemas.py, class OrderItem). -/
structure OrderItem where
  product_id : String
  title : String
  unit_price : ℚ
  quantity : Int
  subtotal : ℚ
deriving DecidableEq

/-- Order schema (schemas.py, class Order); `currency` defaults to "inr" and
`status` to "pending" exactly as the pydantic `Field` defaults do. -/
structure Order where
  user_email : String
  items : List OrderItem
  total : ℚ
  currency : String := "inr"
  status : String := "pending"
  payment_intent_id : Option String := none
deriving DecidableEq

/-- The body of the /checkout request (main.py, class CheckoutRequest). -/
structure CheckoutRequest where
  items : List CartLine
  customer_email : String
deriving DecidableEq

/-- A raised FastAPI HTTPException: status code and detail text. -/
structure HTTPException where
  status_code : Nat
  detail : String
deriving DecidableEq

/-- Python `str()` of a (Starlette) HTTPException: "code: detail". -/
def exceptionStr (e : HTTPException) : String :=
  toString e.status_code ++ ": " ++ e.detail

/-- The `price_data` dict of a Stripe line item (main.py lines 142-147). -/
structure PriceData where
  currency : String
  name : String
  unit_amount : Int
deriving DecidableEq

/-- One Stripe line item (main.py lines 141-149). -/
structure LineItem where
  price_data : PriceData
  quantity : Int
deriving DecidableEq

/-- Python `int(q)` on a rational: truncation toward zero. -/
def pyInt (q : ℚ) : Int :=
  if 0 ≤ q then ⌊q⌋ else ⌈q⌉

/-- The dict returned on the simulated path (main.py line 131). -/
structure SimulatedResponse where
  success : Bool
  order_id : String
  payment_simulated : Bool
deriving DecidableEq

/-- Arguments of the one outbound `stripe.checkout.Session.create` call
(main.py lines 150-156). -/
structure SessionRequest where
  line_items : List LineItem
  success_url : String
  cancel_url : String
  customer_email : String
deriving DecidableEq

/-- The successful body of /checkout: either the simulated-path dict or the
real-path redirect dict `.(url := session.url)`. -/
inductive CheckoutOutcome where
  | simulated (resp : SimulatedResponse)
  | redirect (url : String)
deriving DecidableEq

/-- Result of one checkout invocation: the HTTP response, the orders written
to the document store, and the session requests sent to the processor. -/
structure CheckoutResult where
  response : Except HTTPException CheckoutOutcome
  persistedOrders : List Order
  sessionRequests : List SessionRequest

/-- Ambient configuration of the checkout endpoint: the STRIPE_SECRET_KEY
environment value (empty string means unset), the product collection, the
Stripe session-creation service (returning a redirect url or an error
message), the id `create_document` generates, and FRONTEND_URL. -/
structure Config where
  stripeSecret : String
  catalog : String → Option Product
  stripeCreate : List LineItem → String → String → String → Except String String
  newOrderId : String
  frontendUrl : String := "http://localhost:3000"

/-- The simulated-path loop of checkout (main.py lines 114-128): per line,
resolve the product (404 on a miss), default the quantity to 1, snapshot the
catalog price, append the OrderItem and accumulate the total. -/
def simulatedLoop (catalog : String → Option Product) :
    List CartLine → List OrderItem → ℚ → Except HTTPException (List OrderItem × ℚ)
  | [], items, total => .ok (items, total)
  | it :: rest, items, total =>
    match catalog it.product_id with
    | none => .error ⟨404, "Product not found"⟩
    | some prod =>
      let qty : Int := it.quantity.getD 1
      let unit_price : ℚ := prod.price
      let subtotal : ℚ := unit_price * (qty : ℚ)
      simulatedLoop catalog rest
        (items ++ [{ product_id := it.product_id, title := prod.title,
                     unit_price := unit_price, quantity := qty, subtotal := subtotal }])
        (total + subtotal)

/-- The real-path loop of checkout (main.py lines 136-149): per line, resolve
the product (404 on a miss), default the quantity to 1, and build the Stripe
line item with `unit_amount = int(price * 100)`. -/
def realLoop (catalog : String → Option Product) :
    List CartLine → List LineItem → Except HTTPException (List LineItem)
  | [], acc => .ok acc
  | it :: rest, acc =>
    match catalog it.product_id with
    | none => .error ⟨404, "Product not found"⟩
    | some prod =>
      let qty : Int := it.quantity.getD 1
      realLoop catalog rest
        (acc ++ [{ price_data := { currency := prod.currency, name := prod.title,
                                   unit_amount := pyInt (prod.price * 100) },
                   quantity := qty }])

/-- The /checkout endpoint (main.py lines 107-159). When STRIPE_SECRET is
empty, the simulated path builds the items and total, persists an Order
built with only user_email, items and total (the schema defaults fill
currency and status) and returns the success dict. Otherwise the real path
runs inside a try-block: a 404 raised in the loop is caught by the blanket
`except Exception` and re-raised as a 400 whose detail is `str(e)`; the
session-creation call is issued after the loop, and its failure likewise
becomes a 400 carrying the processor's message. -/
def checkout (cfg : Config) (req : CheckoutRequest) : CheckoutResult :=
  if cfg.stripeSecret = "" then
    match simulatedLoop cfg.catalog req.items [] 0 with
    | .error e => ⟨.error e, [], []⟩
    | .ok (items, total) =>
      let order : Order := { user_email := req.customer_email, items := items, total := total }
      ⟨.ok (.simulated { success := true, order_id := cfg.newOrderId,
                         payment_simulated := true }), [order], []⟩
  else
    match realLoop cfg.catalog req.items [] with
    | .error e => ⟨.error ⟨400, exceptionStr e⟩, [], []⟩
    | .ok line_items =>
      let sreq : SessionRequest :=
        { line_items := line_items,
          success_url := cfg.frontendUrl ++ "/checkout/success",
          cancel_url := cfg.frontendUrl ++ "/checkout/cancel",
          customer_email := req.customer_email }
      match cfg.stripeCreate line_items sreq.success_url sreq.cancel_url req.customer_email with
      | .error msg => ⟨.error ⟨400, msg⟩, [], [sreq]⟩
      | .ok url => ⟨.ok (.redirect url), [], [sreq]⟩

/-! ### Specification helpers
These re-describe one loop iteration per line and are proved equal to the
accumulator loops; the loops above are the faithful translation. -/

/-- What the simulated loop makes of a single resolvable cart line. -/
def resolveLine (catalog : String → Option Product) (it : CartLine) : Option OrderItem :=
  (catalog it.product_id).map fun prod =>
    { product_id := it.product_id, title := prod.title, unit_price := prod.price,
      quantity := it.quantity.getD 1,
      subtotal := prod.price * ((it.quantity.getD 1 : Int) : ℚ) }

/-- What the real loop makes of a single resolvable cart line. -/
def stripeLine (catalog : String → Option Product) (it : CartLine) : Option LineItem :=
  (catalog it.product_id).map fun prod =>
    { price_data := { currency := prod.currency, name := prod.title,
                      unit_amount := pyInt (prod.price * 100) },
      quantity := it.quantity.getD 1 }

/-- Fail-fast traversal of the cart by a per-line resolver. -/
def allLines (f : CartLine → Option β) : List CartLine → Option (List β)
  | [] => some []
  | it :: rest =>
    match f it with
    | none => none
    | some b => (allLines f rest).map (b :: ·)

/-! ### Concrete fixtures used by witnesses and counterexamples -/

/-- A product priced 100.0, as in the spec's worked example. -/
def prodA : Product :=
  { title := "Teak Chair", price := 100, currency := "inr" }

/-- A product whose price times 100 is not an integer (price 0.999). -/
def prodC : Product :=
  { title := "Sample", price := 999 / 1000, currency := "inr" }

/-- A two-product catalog; every other id is unresolvable. -/
def catalogA : String → Option Product := fun pid =>
  if pid = "A" then some prodA else if pid = "C" then some prodC else none

/-- A processor that always returns a fixed redirect url. -/
def stripeOk : List LineItem → String → String → String → Except String String :=
  fun _ _ _ _ => .ok "https://pay.example/session"

/-- Simulated-mode configuration (no STRIPE_SECRET_KEY). -/
def cfgSim : Config :=
  { stripeSecret := "", catalog := catalogA, stripeCreate := stripeOk,
    newOrderId := "order-1" }

/-- Real-mode configuration (STRIPE_SECRET_KEY set). -/
def cfgReal : Config :=
  { cfgSim with stripeSecret := "sk_test" }

/-- Real-mode configuration whose processor rejects every session. -/
def cfgRealDecline : Config :=
  { cfgReal with stripeCreate := fun _ _ _ _ => .error "processor declined" }

/-- The worked example's request: product A, quantity 2. -/
def reqA : CheckoutRequest :=
  { items := [{ product_id := "A", quantity := some 2 }],
    customer_email := "u@example.com" }

/-! ### Loop characterization lemmas -/

theorem simulatedLoop_eq (catalog : String → Option Product)
    (lines : List CartLine) (acc : List OrderItem) (t : ℚ) :
    simulatedLoop catalog lines acc t =
      match allLines (resolveLine catalog) lines with
      | none => .error ⟨404, "Product not found"⟩
      | some res => .ok (acc ++ res, t + (res.map OrderItem.subtotal).sum) := by
  induction lines generalizing acc t with
  | nil => simp [simulatedLoop, allLines]
  | cons it rest ih =>
    cases h : catalog it.product_id with
    | none => simp [simulatedLoop, allLines, resolveLine, h]
    | some prod =>
      rw [simulatedLoop, h]
      simp only
      rw [ih]
      simp only [allLines, resolveLine, h, Option.map_some']
      cases hrest : allLines (resolveLine catalog) rest with
      | none => rfl
      | some res =>
        simp only [Option.map_some', List.map_cons, List.sum_cons]
        rw [List.append_assoc]
        simp [add_assoc]

theorem realLoop_eq (catalog : String → Option Product)
    (lines : List CartLine) (acc : List LineItem) :
    realLoop catalog lines acc =
      match allLines (stripeLine catalog) lines with
      | none => .error ⟨404, "Product not found"⟩
      | some res => .ok (acc ++ res) := by
  induction lines generalizing acc with
  | nil => simp [realLoop, allLines]
  | cons it rest ih =>
    cases h : catalog it.product_id with
    | none => simp [realLoop, allLines, stripeLine, h]
    | some prod =>
      rw [realLoop, h]
      simp only
      rw [ih]
      simp only [allLines, stripeLine, h, Option.map_some']
      cases hrest : allLines (stripeLine catalog) rest with
      | none => rfl
      | some res =>
        simp only [Option.map_some']
        rw [List.append_assoc]
        rfl

theorem allLines_eq_none_of_mem {f : CartLine → Option β} {lines : List CartLine}
    {it : CartLine} (hmem : it ∈ lines) (hfail : f it = none) :
    allLines f lines = none := by
  induction lines with
  | nil => cases hmem
  | cons a rest ih =>
    rcases List.mem_cons.mp hmem with h | h
    · subst h; simp [allLines, hfail]
    · cases ha : f a with
      | none => simp [allLines, ha]
      | some b => simp [allLines, ha, ih h]

theorem allLines_getElem? {f : CartLine → Option β} {lines : List CartLine}
    {res : List β} (h : allLines f lines = some res) :
    ∀ i : Nat, res[i]? = (lines[i]?).bind f := by
  induction lines generalizing res with
  | nil =>
    simp only [allLines, Option.some.injEq] at h
    subst h
    intro i
    simp
  | cons a rest ih =>
    intro i
    cases ha : f a with
    | none => simp [allLines, ha] at h
    | some b =>
      simp only [allLines, ha] at h
      cases hrest : allLines f rest with
      | none => simp [hrest] at h
      | some res' =>
        simp only [hrest, Option.map_some', Option.some.injEq] at h
        subst h
        cases i with
        | zero => simp [ha]
        | succ n => simpa using ih hrest n

/-- Per-line resolution only produces items whose subtotal is the snapshot
price times the quantity. -/
theorem resolveLine_subtotal {catalog : String → Option Product} {it : CartLine}
    {item : OrderItem} (h : resolveLine catalog it = some item) :
    item.subtotal = item.unit_price * (item.quantity : ℚ) := by
  rw [resolveLine] at h
  cases hc : catalog it.product_id with
  | none => rw [hc] at h; cases h
  | some prod =>
    rw [hc, Option.map_some'] at h
    cases h
    rfl

/-! ### Concrete evaluation helpers -/

/-- The order that the simulated path persists for `reqA` under `catalogA`. -/
def orderA : Order :=
  { user_email := "u@example.com",
    items := [{ product_id := "A", title := "Teak Chair", unit_price := 100,
                quantity := 2, subtotal := 200 }],
    total := 200 }

theorem checkout_sim_reqA_persisted :
    (checkout cfgSim reqA).persistedOrders = [orderA] := by
  simp only [checkout, cfgSim, catalogA, reqA, prodA, simulatedLoop, orderA]
  norm_num

theorem checkout_sim_reqA_response :
    (checkout cfgSim reqA).response =
      .ok (.simulated { success := true, order_id := "order-1",
                        payment_simulated := true }) := rfl

/-- A request referencing a product id absent from `catalogA`. -/
def reqB : CheckoutRequest :=
  { items := [{ product_id := "B" }], customer_email := "u@example.com" }

/-- Claim C1: in simulated mode, a checkout whose product references all
resolve does persist an Order and does return the success dict with the
order id and the simulated-payment flag, but the persisted order's status is
the schema default "pending", not "paid": `Order(...)` at main.py line 129
passes no status, contradicting the comment "Create order in DB with status
paid" at line 111 and the spec. Evaluated at the spec's worked example
(product A priced 100.0, quantity 2). -/
theorem C1_simulated_order_has_status_pending :
    (checkout cfgSim reqA).persistedOrders = [orderA] ∧
    (checkout cfgSim reqA).response =
      .ok (.simulated { success := true, order_id := "order-1",
                        payment_simulated := true }) ∧
    orderA.total = 200 ∧
    orderA.status = "pending" ∧
    orderA.status ≠ "paid" := by
  refine ⟨checkout_sim_reqA_persisted, checkout_sim_reqA_response, rfl, rfl, ?_⟩
  decide

/-- Claim C6: a checkout referencing a missing product yields a 404 response
in simulated mode, but in real mode the 404 raised inside the try-block is
caught by the blanket `except Exception` (main.py line 158) and surfaces as
a 400 whose detail is the string form of the original exception; a processor
failure in real mode does yield a 400 carrying the processor's error text. -/
theorem C6_missing_product_is_400_in_real_mode :
    (checkout cfgSim reqB).response = .error ⟨404, "Product not found"⟩ ∧
    (checkout cfgReal reqB).response = .error ⟨400, "404: Product not found"⟩ ∧
    (checkout cfgRealDecline reqA).response = .error ⟨400, "processor declined"⟩ := by
  exact ⟨rfl, rfl, rfl⟩

/-- Claim C10: every order ever persisted by checkout has currency "inr",
whatever the catalog, the request and the products' currency fields say:
the order is built at main.py line 129 without a currency argument, so the
schema default "inr" always applies. -/
theorem C10_persisted_order_currency_is_inr (cfg : Config) (req : CheckoutRequest)
    (order : Order) (h : order ∈ (checkout cfg req).persistedOrders) :
    order.currency = "inr" := by
  by_cases hm : cfg.stripeSecret = ""
  · rw [checkout, if_pos hm] at h
    rcases hl : simulatedLoop cfg.catalog req.items [] 0 with e | ⟨items, total⟩ <;>
      rw [hl] at h
    · simp at h
    · simp only [List.mem_singleton] at h
      subst h
      rfl
  · rw [checkout, if_neg hm] at h
    rcases hl : realLoop cfg.catalog req.items [] with e | lis <;> rw [hl] at h
    · simp at h
    · rcases hc : cfg.stripeCreate lis (cfg.frontendUrl ++ "/checkout/success")
        (cfg.frontendUrl ++ "/checkout/cancel") req.customer_email with msg | url <;>
        simp [hc] at h

/-- Witness for C10 at the concrete simulated checkout of `reqA`. -/
theorem C10_witness :
    orderA ∈ (checkout cfgSim reqA).persistedOrders ∧ orderA.currency = "inr" := by
  have hmem : orderA ∈ (checkout cfgSim reqA).persistedOrders := by
    rw [checkout_sim_reqA_persisted]
    exact List.mem_singleton.mpr rfl
  exact ⟨hmem, C10_persisted_order_currency_is_inr cfgSim reqA orderA hmem⟩

/-- Claim C2: whenever simulated-mode checkout persists an order, the order
total is the sum of its items' subtotals, every item carries
subtotal = unit_price × quantity, the items correspond one-to-one and in
order to the request lines through per-line catalog resolution, and the
item for a line whose product resolves snapshots exactly the freshly
looked-up catalog title and price. -/
theorem C2_total_is_sum_of_catalog_subtotals (cfg : Config) (req : CheckoutRequest)
    (order : Order) (hmode : cfg.stripeSecret = "")
    (h : (checkout cfg req).persistedOrders = [order]) :
    order.total = (order.items.map OrderItem.subtotal).sum ∧
    (∀ item ∈ order.items, item.subtotal = item.unit_price * (item.quantity : ℚ)) ∧
    (∀ i : Nat, order.items[i]? = (req.items[i]?).bind (resolveLine cfg.catalog)) ∧
    (∀ i : Nat, ∀ it : CartLine, req.items[i]? = some it →
      ∀ prod : Product, cfg.catalog it.product_id = some prod →
        order.items[i]? = some
          { product_id := it.product_id, title := prod.title,
            unit_price := prod.price, quantity := it.quantity.getD 1,
            subtotal := prod.price * ((it.quantity.getD 1 : Int) : ℚ) }) := by
  rw [checkout, if_pos hmode, simulatedLoop_eq] at h
  cases hall : allLines (resolveLine cfg.catalog) req.items with
  | none => rw [hall] at h; simp at h
  | some res =>
    rw [hall] at h
    simp only [List.nil_append, zero_add, List.cons.injEq, and_true] at h
    subst h
    refine ⟨rfl, ?_, ?_, ?_⟩
    · intro item hmem
      obtain ⟨i, hi, hget⟩ := List.getElem_of_mem hmem
      have hpt := allLines_getElem? hall i
      rw [List.getElem?_eq_getElem hi, hget] at hpt
      cases hline : req.items[i]? with
      | none => rw [hline] at hpt; cases hpt
      | some it =>
        rw [hline, Option.some_bind] at hpt
        exact resolveLine_subtotal hpt.symm
    · intro i
      exact allLines_getElem? hall i
    · intro i it hit prod hprod
      have hpt := allLines_getElem? hall i
      rw [hit, Option.some_bind] at hpt
      rw [hpt, resolveLine, hprod, Option.map_some']

/-- Witness for C2 at the concrete simulated checkout of `reqA`. -/
theorem C2_witness :
    cfgSim.stripeSecret = "" ∧
    (checkout cfgSim reqA).persistedOrders = [orderA] ∧
    (orderA.total = (orderA.items.map OrderItem.subtotal).sum ∧
     (∀ item ∈ orderA.items, item.subtotal = item.unit_price * (item.quantity : ℚ)) ∧
     (∀ i : Nat, orderA.items[i]? = (reqA.items[i]?).bind (resolveLine cfgSim.catalog)) ∧
     (∀ i : Nat, ∀ it : CartLine, reqA.items[i]? = some it →
       ∀ prod : Product, cfgSim.catalog it.product_id = some prod →
         orderA.items[i]? = some
           { product_id := it.product_id, title := prod.title,
             unit_price := prod.price, quantity := it.quantity.getD 1,
             subtotal := prod.price * ((it.quantity.getD 1 : Int) : ℚ) })) :=
  ⟨rfl, checkout_sim_reqA_persisted,
    C2_total_is_sum_of_catalog_subtotals cfgSim reqA orderA rfl checkout_sim_reqA_persisted⟩

/-- Claim C3: when some cart line's product reference is unresolvable, in
either mode and at any position of the list, checkout aborts with an error,
persists no order and issues no payment-session request. -/
theorem C3_unresolvable_line_aborts_with_no_side_effects (cfg : Config)
    (req : CheckoutRequest)
    (h : ∃ it ∈ req.items, cfg.catalog it.product_id = none) :
    (checkout cfg req).persistedOrders = [] ∧
    (checkout cfg req).sessionRequests = [] ∧
    ∃ e : HTTPException, (checkout cfg req).response = .error e := by
  rcases h with ⟨it, hmem, hnone⟩
  have h1 : allLines (resolveLine cfg.catalog) req.items = none :=
    allLines_eq_none_of_mem hmem (by simp [resolveLine, hnone])
  have h2 : allLines (stripeLine cfg.catalog) req.items = none :=
    allLines_eq_none_of_mem hmem (by simp [stripeLine, hnone])
  by_cases hm : cfg.stripeSecret = ""
  · refine ⟨?_, ?_, ⟨404, "Product not found"⟩, ?_⟩ <;>
      simp [checkout, hm, simulatedLoop_eq, h1]
  · refine ⟨?_, ?_, ⟨400, exceptionStr ⟨404, "Product not found"⟩⟩, ?_⟩ <;>
      simp [checkout, hm, realLoop_eq, h2]

/-- Witness for C3: simulated and concrete unresolvable product id "B",
placed last after a resolvable line. -/
theorem C3_witness :
    (∃ it ∈ [({ product_id := "A", quantity := some 2 } : CartLine),
             { product_id := "B" }], catalogA it.product_id = none) ∧
    ((checkout cfgSim { items := [{ product_id := "A", quantity := some 2 },
                                  { product_id := "B" }],
                        customer_email := "u@example.com" }).persistedOrders = [] ∧
     (checkout cfgSim { items := [{ product_id := "A", quantity := some 2 },
                                  { product_id := "B" }],
                        customer_email := "u@example.com" }).sessionRequests = [] ∧
     ∃ e : HTTPException,
       (checkout cfgSim { items := [{ product_id := "A", quantity := some 2 },
                                    { product_id := "B" }],
                          customer_email := "u@example.com" }).response = .error e) := by
  have h : ∃ it ∈ [({ product_id := "A", quantity := some 2 } : CartLine),
                   { product_id := "B" }], catalogA it.product_id = none := by
    refine ⟨{ product_id := "B" }, ?_, rfl⟩
    simp
  exact ⟨h, C3_unresolvable_line_aborts_with_no_side_effects cfgSim _ h⟩

/-- The request fields the checkout code actually reads from a cart line. -/
def lineKey (it : CartLine) : String × Option Int :=
  (it.product_id, it.quantity)

theorem resolveLine_key_congr (catalog : String → Option Product)
    {it₁ it₂ : CartLine} (h : lineKey it₁ = lineKey it₂) :
    resolveLine catalog it₁ = resolveLine catalog it₂ := by
  obtain ⟨p₁, q₁, c₁⟩ := it₁
  obtain ⟨p₂, q₂, c₂⟩ := it₂
  simp only [lineKey, Prod.mk.injEq] at h
  obtain ⟨h1, h2⟩ := h
  subst h1; subst h2
  rfl

theorem stripeLine_key_congr (catalog : String → Option Product)
    {it₁ it₂ : CartLine} (h : lineKey it₁ = lineKey it₂) :
    stripeLine catalog it₁ = stripeLine catalog it₂ := by
  obtain ⟨p₁, q₁, c₁⟩ := it₁
  obtain ⟨p₂, q₂, c₂⟩ := it₂
  simp only [lineKey, Prod.mk.injEq] at h
  obtain ⟨h1, h2⟩ := h
  subst h1; subst h2
  rfl

theorem allLines_key_congr {f : CartLine → Option β}
    (hf : ∀ it₁ it₂ : CartLine, lineKey it₁ = lineKey it₂ → f it₁ = f it₂)
    {l₁ l₂ : List CartLine} (h : l₁.map lineKey = l₂.map lineKey) :
    allLines f l₁ = allLines f l₂ := by
  induction l₁ generalizing l₂ with
  | nil =>
    cases l₂ with
    | nil => rfl
    | cons b bs => simp at h
  | cons a as ih =>
    cases l₂ with
    | nil => simp at h
    | cons b bs =>
      simp only [List.map_cons, List.cons.injEq] at h
      rw [allLines, allLines, hf a b h.1, ih h.2]

/-- Claim C4: the checkout result — response, persisted orders and session
requests alike — depends only on each line's product_id and quantity and on
the customer email: any price-like field a client attaches to a line is
never read, so two requests equal up to those fields produce identical
results under every configuration. -/
theorem C4_client_price_never_affects_checkout (cfg : Config)
    (req₁ req₂ : CheckoutRequest)
    (hemail : req₁.customer_email = req₂.customer_email)
    (hitems : req₁.items.map lineKey = req₂.items.map lineKey) :
    checkout cfg req₁ = checkout cfg req₂ := by
  have h1 : allLines (resolveLine cfg.catalog) req₁.items =
      allLines (resolveLine cfg.catalog) req₂.items :=
    allLines_key_congr (fun _ _ hk => resolveLine_key_congr cfg.catalog hk) hitems
  have h2 : allLines (stripeLine cfg.catalog) req₁.items =
      allLines (stripeLine cfg.catalog) req₂.items :=
    allLines_key_congr (fun _ _ hk => stripeLine_key_congr cfg.catalog hk) hitems
  by_cases hm : cfg.stripeSecret = "" <;>
    simp [checkout, hm, simulatedLoop_eq, realLoop_eq, h1, h2, hemail]

/-- A request whose line carries a client-supplied price of 1. -/
def reqP1 : CheckoutRequest :=
  { items := [{ product_id := "A", quantity := some 2, client_price := some 1 }],
    customer_email := "u@example.com" }

/-- The same request with the client-supplied price tampered to 123456. -/
def reqP2 : CheckoutRequest :=
  { items := [{ product_id := "A", quantity := some 2, client_price := some 123456 }],
    customer_email := "u@example.com" }

/-- Witness for C4: tampering the client price field of `reqP1` into `reqP2`
leaves the simulated checkout result unchanged. -/
theorem C4_witness :
    reqP1.customer_email = reqP2.customer_email ∧
    reqP1.items.map lineKey = reqP2.items.map lineKey ∧
    checkout cfgSim reqP1 = checkout cfgSim reqP2 :=
  ⟨rfl, rfl, C4_client_price_never_affects_checkout cfgSim reqP1 reqP2 rfl rfl⟩

/-- A request referencing the product priced 0.999. -/
def reqC : CheckoutRequest :=
  { items := [{ product_id := "C" }], customer_email := "u@example.com" }

/-- Claim C5 counterexample: the code computes the minor-unit amount with
`int(price * 100)`, a truncation toward zero, not a rounding. For the
product priced 0.999 the emitted descriptor carries unit_amount 99 while
round(0.999 × 100) = 100, refuting the claim as stated at this input. -/
theorem C5_counterexample_truncation_beats_rounding :
    (checkout cfgReal reqC).sessionRequests =
      [{ line_items := [{ price_data := { currency := "inr", name := "Sample",
                                          unit_amount := 99 }, quantity := 1 }],
         success_url := "http://localhost:3000/checkout/success",
         cancel_url := "http://localhost:3000/checkout/cancel",
         customer_email := "u@example.com" }] ∧
    prodC.price = 999 / 1000 ∧
    round (prodC.price * 100) = 100 ∧
    (99 : Int) ≠ round (prodC.price * 100) := by
  have hval : prodC.price * 100 = 999 / 10 := by rw [prodC]; norm_num
  have hround : round (prodC.price * 100) = 100 := by
    rw [hval, round_eq]
    norm_num
  have hpy : pyInt (prodC.price * 100) = 99 := by
    rw [pyInt, hval]
    norm_num
  refine ⟨?_, by rw [prodC], hround, by rw [hround]; decide⟩
  simp [checkout, cfgReal, cfgSim, catalogA, reqC, realLoop, stripeOk, hpy]
  exact ⟨⟨rfl, rfl⟩, rfl, rfl⟩

/-- Claim C5 amended: in real mode, for every resolved cart line the
processor-facing price descriptor carries minor-unit amount
= int(unit_price × 100) — Python integer truncation toward zero, not a
rounding — together with the product's currency, display name and the
line's normalized quantity; the single session request issued carries
exactly these descriptors in input order (a product of integral price such
as 100.0 with quantity 2 still yields minorUnitAmount 10000 and
quantity 2, since truncation and rounding agree there). -/
theorem C5_amended_minor_unit_amount_is_truncation (cfg : Config)
    (req : CheckoutRequest) (lis : List LineItem)
    (hmode : cfg.stripeSecret ≠ "")
    (h : allLines (stripeLine cfg.catalog) req.items = some lis) :
    (checkout cfg req).sessionRequests =
      [{ line_items := lis,
         success_url := cfg.frontendUrl ++ "/checkout/success",
         cancel_url := cfg.frontendUrl ++ "/checkout/cancel",
         customer_email := req.customer_email }] ∧
    ∀ i : Nat, ∀ it : CartLine, req.items[i]? = some it →
      ∀ prod : Product, cfg.catalog it.product_id = some prod →
        lis[i]? = some
          { price_data := { currency := prod.currency, name := prod.title,
                            unit_amount := pyInt (prod.price * 100) },
            quantity := it.quantity.getD 1 } := by
  constructor
  · rw [checkout, if_neg hmode, realLoop_eq, h]
    rcases hc : cfg.stripeCreate lis (cfg.frontendUrl ++ "/checkout/success")
      (cfg.frontendUrl ++ "/checkout/cancel") req.customer_email with msg | url <;>
      simp [hc]
  · intro i it hit prod hprod
    have hpt := allLines_getElem? h i
    rw [hit, Option.some_bind] at hpt
    rw [hpt, stripeLine, hprod, Option.map_some']

/-- The line items the real path builds for `reqA` under `catalogA`. -/
def lisA : List LineItem :=
  [{ price_data := { currency := "inr", name := "Teak Chair", unit_amount := 10000 },
     quantity := 2 }]

theorem allLines_stripe_reqA : allLines (stripeLine catalogA) reqA.items = some lisA := by
  have hpy : pyInt (prodA.price * 100) = 10000 := by
    rw [prodA, pyInt]
    norm_num
  simp [allLines, stripeLine, catalogA, reqA, lisA, hpy]
  exact ⟨rfl, rfl⟩

/-- Witness for the amended C5 at the spec's worked example: price 100.0 and
quantity 2 give minorUnitAmount 10000 and quantity 2. -/
theorem C5_amended_witness :
    cfgReal.stripeSecret ≠ "" ∧
    allLines (stripeLine cfgReal.catalog) reqA.items = some lisA ∧
    ((checkout cfgReal reqA).sessionRequests =
      [{ line_items := lisA,
         success_url := cfgReal.frontendUrl ++ "/checkout/success",
         cancel_url := cfgReal.frontendUrl ++ "/checkout/cancel",
         customer_email := reqA.customer_email }] ∧
     ∀ i : Nat, ∀ it : CartLine, reqA.items[i]? = some it →
       ∀ prod : Product, cfgReal.catalog it.product_id = some prod →
         lisA[i]? = some
           { price_data := { currency := prod.currency, name := prod.title,
                             unit_amount := pyInt (prod.price * 100) },
             quantity := it.quantity.getD 1 }) :=
  ⟨by decide, allLines_stripe_reqA,
    C5_amended_minor_unit_amount_is_truncation cfgReal reqA lisA (by decide)
      allLines_stripe_reqA⟩

/-- Claim C7: in real mode checkout never persists an order, and on success
the response is exactly the redirect url the processor's session-creation
call returned for the line items resolved from the cart. -/
theorem C7_real_mode_persists_no_order (cfg : Config) (req : CheckoutRequest)
    (hmode : cfg.stripeSecret ≠ "") :
    (checkout cfg req).persistedOrders = [] ∧
    ∀ out : CheckoutOutcome, (checkout cfg req).response = .ok out →
      ∃ url : String, ∃ lis : List LineItem,
        out = .redirect url ∧
        allLines (stripeLine cfg.catalog) req.items = some lis ∧
        cfg.stripeCreate lis (cfg.frontendUrl ++ "/checkout/success")
          (cfg.frontendUrl ++ "/checkout/cancel") req.customer_email = .ok url := by
  rw [checkout, if_neg hmode, realLoop_eq]
  cases hall : allLines (stripeLine cfg.catalog) req.items with
  | none => exact ⟨rfl, by intro out hout; cases hout⟩
  | some lis =>
    simp only [List.nil_append]
    rcases hc : cfg.stripeCreate lis (cfg.frontendUrl ++ "/checkout/success")
      (cfg.frontendUrl ++ "/checkout/cancel") req.customer_email with msg | url
    · exact ⟨rfl, by intro out hout; cases hout⟩
    · refine ⟨rfl, ?_⟩
      intro out hout
      cases hout
      exact ⟨url, lis, rfl, rfl, hc⟩

/-- Witness for C7 at the concrete real-mode checkout of `reqA`. -/
theorem C7_witness :
    cfgReal.stripeSecret ≠ "" ∧
    ((checkout cfgReal reqA).persistedOrders = [] ∧
     ∀ out : CheckoutOutcome, (checkout cfgReal reqA).response = .ok out →
       ∃ url : String, ∃ lis : List LineItem,
         out = .redirect url ∧
         allLines (stripeLine cfgReal.catalog) reqA.items = some lis ∧
         cfgReal.stripeCreate lis (cfgReal.frontendUrl ++ "/checkout/success")
           (cfgReal.frontendUrl ++ "/checkout/cancel") reqA.customer_email = .ok url) :=
  ⟨by decide, C7_real_mode_persists_no_order cfgReal reqA (by decide)⟩

theorem allLines_middle {f : CartLine → Option β} {l₁ l₂ : CartLine}
    (h : f l₁ = f l₂) (pre post : List CartLine) :
    allLines f (pre ++ l₁ :: post) = allLines f (pre ++ l₂ :: post) := by
  induction pre with
  | nil =>
    simp only [List.nil_append, allLines]
    rw [h]
  | cons a as ih =>
    simp only [List.cons_append, allLines, List.append_eq, ih]

/-- Claim C8: a cart line that omits the quantity field behaves exactly like
the same line with quantity 1, in both the simulated and the real path, at
any position of the cart. -/
theorem C8_missing_quantity_defaults_to_one (cfg : Config) (email pid : String)
    (pre post : List CartLine) (cp cp' : Option ℚ) :
    checkout cfg { items := pre ++ { product_id := pid, quantity := none,
                                     client_price := cp } :: post,
                   customer_email := email } =
    checkout cfg { items := pre ++ { product_id := pid, quantity := some 1,
                                     client_price := cp' } :: post,
                   customer_email := email } := by
  have h1 : resolveLine cfg.catalog ⟨pid, none, cp⟩ =
      resolveLine cfg.catalog ⟨pid, some 1, cp'⟩ := by
    simp [resolveLine]
  have h2 : stripeLine cfg.catalog ⟨pid, none, cp⟩ =
      stripeLine cfg.catalog ⟨pid, some 1, cp'⟩ := by
    simp [stripeLine]
  by_cases hm : cfg.stripeSecret = "" <;>
    simp [checkout, hm, simulatedLoop_eq, realLoop_eq,
      allLines_middle h1 pre post, allLines_middle h2 pre post]

/-- Claim C9: a non-positive quantity is not rejected: in simulated mode a
resolvable line with quantity q ≤ 0 still yields a persisted order and the
success response, with the corresponding item carrying quantity q and
subtotal = catalog price × q. -/
theorem C9_nonpositive_quantity_not_rejected (cfg : Config) (email : String)
    (pre post : List CartLine) (line : CartLine) (q : Int) (prod : Product)
    (res : List OrderItem)
    (hmode : cfg.stripeSecret = "")
    (hq : line.quantity = some q) (_hq0 : q ≤ 0)
    (hprod : cfg.catalog line.product_id = some prod)
    (hres : allLines (resolveLine cfg.catalog) (pre ++ line :: post) = some res) :
    ∃ order : Order,
      (checkout cfg { items := pre ++ line :: post,
                      customer_email := email }).persistedOrders = [order] ∧
      (checkout cfg { items := pre ++ line :: post,
                      customer_email := email }).response =
        .ok (.simulated { success := true, order_id := cfg.newOrderId,
                          payment_simulated := true }) ∧
      order.items[pre.length]? = some
        { product_id := line.product_id, title := prod.title,
          unit_price := prod.price, quantity := q,
          subtotal := prod.price * (q : ℚ) } := by
  have hline : (pre ++ line :: post)[pre.length]? = some line := by
    rw [List.getElem?_append_right (Nat.le_refl pre.length)]
    simp
  have hpt := allLines_getElem? hres pre.length
  rw [hline, Option.some_bind, resolveLine, hprod, Option.map_some', hq] at hpt
  refine ⟨{ user_email := email, items := res,
            total := (res.map OrderItem.subtotal).sum }, ?_, ?_, ?_⟩
  · rw [checkout, if_pos hmode, simulatedLoop_eq]
    simp only [hres, List.nil_append, zero_add]
  · rw [checkout, if_pos hmode, simulatedLoop_eq]
    simp only [hres]
  · simpa using hpt

/-- A cart line requesting quantity −2 of product A. -/
def lineNeg : CartLine := { product_id := "A", quantity := some (-2) }

theorem allLines_resolve_lineNeg :
    allLines (resolveLine catalogA) ([] ++ lineNeg :: []) =
      some [{ product_id := "A", title := "Teak Chair", unit_price := 100,
              quantity := -2, subtotal := -200 }] := by
  simp [allLines, resolveLine, catalogA, lineNeg, prodA]
  norm_num

/-- Witness for C9: quantity −2 of the product priced 100 is accepted and
produces an order item with subtotal −200. -/
theorem C9_witness :
    cfgSim.stripeSecret = "" ∧
    lineNeg.quantity = some (-2) ∧
    (-2 : Int) ≤ 0 ∧
    cfgSim.catalog lineNeg.product_id = some prodA ∧
    allLines (resolveLine cfgSim.catalog) ([] ++ lineNeg :: []) =
      some [{ product_id := "A", title := "Teak Chair", unit_price := 100,
              quantity := -2, subtotal := -200 }] ∧
    ∃ order : Order,
      (checkout cfgSim { items := [] ++ lineNeg :: [],
                         customer_email := "u@example.com" }).persistedOrders = [order] ∧
      (checkout cfgSim { items := [] ++ lineNeg :: [],
                         customer_email := "u@example.com" }).response =
        .ok (.simulated { success := true, order_id := cfgSim.newOrderId,
                          payment_simulated := true }) ∧
      order.items[(List.length ([] : List CartLine))]? = some
        { product_id := lineNeg.product_id, title := prodA.title,
          unit_price := prodA.price, quantity := -2,
          subtotal := prodA.price * ((-2 : Int) : ℚ) } :=
  ⟨rfl, rfl, by decide, rfl, allLines_resolve_lineNeg,
    C9_nonpositive_quantity_not_rejected cfgSim "u@example.com" [] [] lineNeg (-2)
      prodA _ rfl rfl (by decide) rfl allLines_resolve_lineNeg⟩

end WoodenMart
